import Mathlib

/-!
# Verification of the esme chat-to-Slack synchronization core

Shallow embedding of the repository's Slack-synchronization subsystem:

* `crypto` : byte-level SHA-256 and HMAC-SHA256 (Node's `crypto.createHmac("sha256", …)`),
  used by the webhook signature verifier.
* `verifySlackRequest` — the two variants found in the repository
  (`src/routes/slack.js`, which calls `crypto.timingSafeEqual` without a length
  guard, and the `src/routes/ai.js`-file variant, which checks lengths first).
* `sanitizeChannelName` — the two variants (`services/slackChannelManager.js`
  and `services/slackChatSync.js`).
* `getOrCreateSlackChannel`, `postMessageToSlack` (`services/slackChannelManager.js`),
  `renameSlackChannelForChat` (`services/slackChatSync.js`).
* The Slack events-API handlers (the `slack.js` one and the `ai.js`-file one)
  and the interactive `POST /ai/prompt` handler, modelled as state transformers
  over an explicit database value, with external calls supplied by an
  environment record and observable actions returned as an effect record.

Bytes are `Nat` values `< 256`; machine words are `Nat` reduced mod `2^32`.
-/

namespace Esme

/-! ## SHA-256 over byte lists (Node `crypto`), little building blocks first -/

namespace crypto

def mask32 (x : Nat) : Nat := x &&& 0xFFFFFFFF

def add32 (a b : Nat) : Nat := (a + b) &&& 0xFFFFFFFF

def rotr32 (n x : Nat) : Nat := mask32 ((x >>> n) ||| (x <<< (32 - n)))

def bigS0 (x : Nat) : Nat := (rotr32 2 x) ^^^ (rotr32 13 x) ^^^ (rotr32 22 x)

def bigS1 (x : Nat) : Nat := (rotr32 6 x) ^^^ (rotr32 11 x) ^^^ (rotr32 25 x)

def smallS0 (x : Nat) : Nat := (rotr32 7 x) ^^^ (rotr32 18 x) ^^^ (x >>> 3)

def smallS1 (x : Nat) : Nat := (rotr32 17 x) ^^^ (rotr32 19 x) ^^^ (x >>> 10)

def chFn (x y z : Nat) : Nat := (x &&& y) ^^^ ((x ^^^ 0xFFFFFFFF) &&& z)

def majFn (x y z : Nat) : Nat := (x &&& y) ^^^ (x &&& z) ^^^ (y &&& z)

/-- Trial-division primality test for the small primes the constants need. -/
def isSmallPrime (n : Nat) : Bool :=
  decide (2 ≤ n) && (List.range (n - 2)).all (fun d => n % (d + 2) != 0)

/-- The first 64 primes (2, 3, 5, …, 311). -/
def primes64 : List Nat := ((List.range 320).filter isSmallPrime).take 64

/-- Fuel-driven binary search for the integer cube root. -/
def icbrtGo : Nat → Nat → Nat → Nat → Nat
  | 0, _, lo, _ => lo
  | fuel + 1, n, lo, hi =>
      if hi ≤ lo + 1 then lo
      else
        let mid := (lo + hi) / 2
        if mid * mid * mid ≤ n then icbrtGo fuel n mid hi else icbrtGo fuel n lo mid

def icbrt (n : Nat) : Nat := icbrtGo 128 n 0 (n + 1)

/-- Fuel-driven binary search for the integer square root. -/
def isqrtGo : Nat → Nat → Nat → Nat → Nat
  | 0, _, lo, _ => lo
  | fuel + 1, n, lo, hi =>
      if hi ≤ lo + 1 then lo
      else
        let mid := (lo + hi) / 2
        if mid * mid ≤ n then isqrtGo fuel n mid hi else isqrtGo fuel n lo mid

def isqrt (n : Nat) : Nat := isqrtGo 128 n 0 (n + 1)

/-- The 64 SHA-256 round constants: the first 32 bits of the fractional parts
of the cube roots of the first 64 primes,
`K[i] = floor(cbrt(p_i) * 2^32) mod 2^32`. -/
def K : List Nat := primes64.map (fun p => icbrt (p <<< 96) % (1 <<< 32))

/-- The initial hash state: the first 32 bits of the fractional parts of the
square roots of the first 8 primes. -/
def H0 : List Nat := (primes64.take 8).map (fun p => isqrt (p <<< 64) % (1 <<< 32))

/-- Big-endian 8-byte encoding of a (bit-length) value. -/
def be64 (n : Nat) : List Nat :=
  [(n >>> 56) &&& 0xFF, (n >>> 48) &&& 0xFF, (n >>> 40) &&& 0xFF,
   (n >>> 32) &&& 0xFF, (n >>> 24) &&& 0xFF, (n >>> 16) &&& 0xFF,
   (n >>> 8) &&& 0xFF, n &&& 0xFF]

/-- Big-endian 4-byte encoding of a 32-bit word. -/
def be32 (n : Nat) : List Nat :=
  [(n >>> 24) &&& 0xFF, (n >>> 16) &&& 0xFF, (n >>> 8) &&& 0xFF, n &&& 0xFF]

/-- SHA-256 padding: append `0x80`, zero bytes up to 56 mod 64, then the
bit length as a 64-bit big-endian value. -/
def padMessage (msg : List Nat) : List Nat :=
  let L := msg.length
  msg ++ [0x80] ++ List.replicate ((119 - L % 64) % 64) 0 ++ be64 (8 * L)

/-- Parse four consecutive bytes as a big-endian 32-bit word. -/
def toWordsAux : Nat → List Nat → List Nat
  | 0, _ => []
  | _, [] => []
  | fuel + 1, b0 :: b1 :: b2 :: b3 :: rest =>
      ((b0 <<< 24) ||| (b1 <<< 16) ||| (b2 <<< 8) ||| b3) :: toWordsAux fuel rest
  | _ + 1, _ => []

def toWords (block : List Nat) : List Nat := toWordsAux block.length block

/-- Split the padded message into 64-byte blocks (fuel-driven so that the
kernel can evaluate it). -/
def chunks64Aux : Nat → List Nat → List (List Nat)
  | 0, _ => []
  | _, [] => []
  | fuel + 1, l => l.take 64 :: chunks64Aux fuel (l.drop 64)

def chunks64 (l : List Nat) : List (List Nat) := chunks64Aux (l.length + 1) l

/-- One message-schedule extension step: appends `W[i]` for `i = w.length`. -/
def schedStep (w : List Nat) : List Nat :=
  let i := w.length
  w ++ [add32 (add32 (smallS1 (w.getD (i - 2) 0)) (w.getD (i - 7) 0))
              (add32 (smallS0 (w.getD (i - 15) 0)) (w.getD (i - 16) 0))]

def schedule (w16 : List Nat) : List Nat :=
  (List.range 48).foldl (fun w _ => schedStep w) w16

/-- One compression round on the state `[a,b,c,d,e,f,g,h]`. -/
def roundStep (st : List Nat) (kw : Nat × Nat) : List Nat :=
  match st with
  | [a, b, c, d, e, f, g, h] =>
      let t1 := add32 h (add32 (bigS1 e) (add32 (chFn e f g) (add32 kw.1 kw.2)))
      let t2 := add32 (bigS0 a) (majFn a b c)
      [add32 t1 t2, a, b, c, add32 d t1, e, f, g]
  | other => other

/-- Compress one 64-byte block into the running state. -/
def compress (h : List Nat) (block : List Nat) : List Nat :=
  let w := schedule (toWords block)
  let st := (K.zip w).foldl roundStep h
  List.zipWith add32 h st

/-- SHA-256 of a byte list, as a 32-byte list. -/
def sha256 (msg : List Nat) : List Nat :=
  ((chunks64 (padMessage msg)).foldl compress H0).flatMap be32

/-- HMAC-SHA256 (Node `crypto.createHmac("sha256", key).update(msg)`),
64-byte block size. -/
def hmacSha256 (key msg : List Nat) : List Nat :=
  let k0 := if 64 < key.length then sha256 key else key
  let kp := k0 ++ List.replicate (64 - k0.length) 0
  sha256 ((kp.map (· ^^^ 0x5c)) ++ sha256 ((kp.map (· ^^^ 0x36)) ++ msg))

/-- Lower-case hex character (as an ASCII byte) of a nibble. -/
def hexChar (n : Nat) : Nat := if n < 10 then 48 + n else 87 + n

/-- Lower-case hex rendering of a byte list (Node `.digest("hex")`),
as a list of ASCII bytes. -/
def hexBytes (l : List Nat) : List Nat :=
  l.flatMap (fun b => [hexChar (b >>> 4), hexChar (b &&& 15)])

end crypto

/-- ASCII bytes of a string (all source inputs of interest are ASCII). -/
def strBytes (s : String) : List Nat := s.data.map Char.toNat

/-- Decimal digits of a natural number as ASCII bytes (fuel-driven). -/
def decDigitsAux : Nat → Nat → List Nat
  | 0, _ => []
  | fuel + 1, n => if n < 10 then [48 + n] else decDigitsAux fuel (n / 10) ++ [48 + n % 10]

def decDigits (n : Nat) : List Nat := decDigitsAux (n + 1) n

/-! ## Webhook signature verification (`verifySlackRequest`)

Two variants appear in the repository: the one in `src/routes/slack.js`
(no buffer-length guard before `crypto.timingSafeEqual`) and the one in the
`src/routes/ai.js` file (explicit length guard plus a `try`/`catch`).
Headers are modelled as `Option` values (an absent or empty header is falsy
in JS); the timestamp header is modelled as the number it canonically
denotes, and the signature base string uses its decimal rendering. -/

inductive VerifyOutcome
  | next             -- `next()` called: request accepted
  | missingHeaders   -- 400 "Missing Slack headers"
  | missingSecret    -- 500 "Missing SLACK_SIGNING_SECRET" (ai.js variant only)
  | missingRawBody   -- 400 "Missing rawBody" (ai.js variant only)
  | tooOld           -- 400 "Request too old"
  | invalidSignature -- 400 "Invalid signature"
  | thrown           -- uncaught exception (Express answers 500)
  deriving DecidableEq, Repr

structure VerifyResult where
  outcome : VerifyOutcome
  comparatorInvoked : Bool
  deriving DecidableEq, Repr

/-- Node's `crypto.timingSafeEqual`: throws (`.error`) when the buffers have
different lengths, otherwise compares the buffers (in constant time). -/
def timingSafeEqual (a b : List Nat) : Except Unit Bool :=
  if a.length = b.length then .ok (a = b) else .error ()

/-- `"v0=" + HMAC_SHA256(signingSecret, "v0:" + timestamp + ":" + rawBody)`
as a hex digest, the `mySignature` value of both verifier variants. -/
def expectedSignature (secret : List Nat) (ts : Nat) (body : List Nat) : List Nat :=
  strBytes "v0=" ++
    crypto.hexBytes (crypto.hmacSha256 secret (strBytes "v0:" ++ decDigits ts ++ [58] ++ body))

/-- `verifySlackRequest` from `src/routes/slack.js`: header presence check,
replay window, then `crypto.timingSafeEqual` on the computed and supplied
signatures with no length guard — unequal lengths make the comparator throw. -/
def verifySlackRequest_slack (rawBody : List Nat) (sigHeader : Option (List Nat))
    (tsHeader : Option Nat) (signingSecret : List Nat) (now : Nat) : VerifyResult :=
  match sigHeader, tsHeader with
  | some sig, some ts =>
      if sig = [] then ⟨.missingHeaders, false⟩
      else if 300 < ((now : Int) - (ts : Int)).natAbs then ⟨.tooOld, false⟩
      else
        match timingSafeEqual (expectedSignature signingSecret ts rawBody) sig with
        | .error _ => ⟨.thrown, true⟩
        | .ok true => ⟨.next, true⟩
        | .ok false => ⟨.invalidSignature, true⟩
  | _, _ => ⟨.missingHeaders, false⟩

/-- `verifySlackRequest` from the `src/routes/ai.js` file: additionally checks
the signing secret and raw body, and rejects on a buffer-length mismatch
*before* calling `crypto.timingSafeEqual`. -/
def verifySlackRequest_ai (rawBody : List Nat) (sigHeader : Option (List Nat))
    (tsHeader : Option Nat) (signingSecret : List Nat) (now : Nat) : VerifyResult :=
  match sigHeader, tsHeader with
  | some sig, some ts =>
      if sig = [] then ⟨.missingHeaders, false⟩
      else if signingSecret = [] then ⟨.missingSecret, false⟩
      else if 300 < ((now : Int) - (ts : Int)).natAbs then ⟨.tooOld, false⟩
      else if rawBody = [] then ⟨.missingRawBody, false⟩
      else
        let expected := expectedSignature signingSecret ts rawBody
        if expected.length ≠ sig.length then ⟨.invalidSignature, false⟩
        else
          match timingSafeEqual expected sig with
          | .error _ => ⟨.thrown, true⟩
          | .ok true => ⟨.next, true⟩
          | .ok false => ⟨.invalidSignature, true⟩
  | _, _ => ⟨.missingHeaders, false⟩

/-- Replace byte `i` of a byte list by its complement (a single-byte flip). -/
def flipByte (l : List Nat) (i : Nat) : List Nat := l.set i ((l.getD i 0) ^^^ 0xFF)

/-! ## Channel name sanitization

`sanitizeChannelName` also appears twice: in `services/slackChannelManager.js`
and in `services/slackChatSync.js`; they differ in the empty-name fallback and
in the truncation branch. Both are modelled over `List Char` so that length
facts stay elementary. -/

/-- A character matched by the JS character class `[a-z0-9-_]`. -/
def isAllowedChar (c : Char) : Bool :=
  (97 ≤ c.toNat && c.toNat ≤ 122) || (48 ≤ c.toNat && c.toNat ≤ 57) || c = '-' || c = '_'

/-- JS `.replace(/[^a-z0-9-_]/g, "-")`. -/
def replaceBad (l : List Char) : List Char :=
  l.map (fun c => if isAllowedChar c then c else '-')

/-- JS `.replace` of the global regex "one or more hyphens" by `"-"`:
each maximal run of hyphens becomes one hyphen. -/
def collapseHyphens : List Char → List Char
  | [] => []
  | [c] => [c]
  | a :: b :: rest =>
      if a = '-' && b = '-' then collapseHyphens (b :: rest)
      else a :: collapseHyphens (b :: rest)

/-- One leading hyphen removed, as matched once by the anchored `^-`. -/
def dropOneLeadingHyphen : List Char → List Char
  | '-' :: rest => rest
  | l => l

/-- One trailing hyphen removed, as matched once by the anchored `-$`.
Together with `dropOneLeadingHyphen` this is JS `.replace(/^-|-$/g, "")`. -/
def dropOneTrailingHyphen (l : List Char) : List Char :=
  (dropOneLeadingHyphen l.reverse).reverse

/-- The sanitized body shared by both variants: lower-case, replace characters
outside `[a-z0-9-_]` by `-`, collapse hyphen runs, trim a leading/trailing `-`. -/
def sanitizeBody (name : String) : List Char :=
  dropOneTrailingHyphen (dropOneLeadingHyphen
    (collapseHyphens (replaceBad (name.data.map Char.toLower))))

/-- JS `chatId.slice(-8)`. -/
def idSuffix (chatId : String) : List Char :=
  chatId.data.drop (chatId.data.length - 8)

namespace slackChannelManager

/-- `sanitizeChannelName` from `services/slackChannelManager.js`:
`esme-<body>-<suffix>`, truncated to `substring(0, 72) + suffix` when longer
than 80. -/
def sanitizeChannelName (name chatId : String) : String :=
  let suffix := idSuffix chatId
  let s := "esme-".data ++ sanitizeBody name ++ ['-'] ++ suffix
  ⟨if 80 < s.length then s.take 72 ++ suffix else s⟩

end slackChannelManager

namespace slackChatSync

/-- `sanitizeChannelName` from `services/slackChatSync.js`: empty names fall
back to `"chat"`, and the truncation branch is `substring(0, 72) + "-" + suffix`. -/
def sanitizeChannelName (name chatId : String) : String :=
  let nm := if name = "" then "chat" else name
  let suffix := idSuffix chatId
  let s := "esme-".data ++ sanitizeBody nm ++ ['-'] ++ suffix
  ⟨if 80 < s.length then s.take 72 ++ ['-'] ++ suffix else s⟩

end slackChatSync

/-! ## Data model

The Prisma rows touched by the synchronization core (`prisma/migrations`):
`User.{slackUserId, slackAccessToken, accessToken, refreshToken}`,
`Chat.{slackChannelId, slackChannelName}`,
`Message.{slackTs, syncedToSlack}`. A database value is explicit state. -/

structure User where
  id : String
  email : String
  slackUserId : Option String := none
  slackAccessToken : Option String := none
  accessToken : Option String := none
  refreshToken : Option String := none
  deriving DecidableEq, Repr

structure Chat where
  id : String
  ownerId : String
  name : String
  systemPrompt : Option String := none
  slackChannelId : Option String := none
  slackChannelName : Option String := none
  deriving DecidableEq, Repr

structure Message where
  chatId : String
  sender : String
  text : String
  userId : Option String := none
  slackTs : Option String := none
  syncedToSlack : Bool := false
  deriving DecidableEq, Repr

structure Db where
  users : List User
  chats : List Chat
  messages : List Message
  deriving DecidableEq, Repr

/-- `prisma.chat.findUnique({ where: { slackChannelId } })`. -/
def Db.findChatBySlackChannelId (db : Db) (cid : String) : Option Chat :=
  db.chats.find? (fun c => c.slackChannelId == some cid)

/-- `prisma.user.findUnique({ where: { slackUserId } })`. -/
def Db.findUserBySlackUserId (db : Db) (uid : String) : Option User :=
  db.users.find? (fun u => u.slackUserId == some uid)

/-- `prisma.user.findUnique({ where: { id } })`. -/
def Db.findUserById (db : Db) (uid : String) : Option User :=
  db.users.find? (fun u => u.id == uid)

/-- `prisma.message.findFirst({ where: { slackTs } })` — note: not scoped to a
chat; it searches the messages of every conversation. -/
def Db.findMessageBySlackTs (db : Db) (ts : String) : Option Message :=
  db.messages.find? (fun m => m.slackTs == some ts)

/-- An inbound Slack events-API `event` object (the fields the handlers read). -/
structure SlackEvent where
  type : String
  subtype : Option String := none
  bot_id : Option String := none
  channel_type : String
  channel : String
  user : String
  ts : String
  text : String
  thread_ts : Option String := none
  deriving DecidableEq, Repr

/-- Outcomes of the remote calls a handler makes, supplied by the caller:
the Gemini completion, the Google OAuth token-refresh exchange, and the
`chat.postMessage` reply post (whose `ts` the platform assigns). -/
structure Env where
  geminiResult : Except String String
  refreshResult : Except String String
  postResult : Except String String
  noticePostOk : Bool
  deriving Repr

/-- Externally observable actions a handler performed. -/
structure Effects where
  llmCalled : Bool := false
  refreshCalled : Bool := false
  driveFetched : Bool := false
  driveToken : Option String := none     -- token passed to getDriveFileContent
  posts : List (String × Option String) := []  -- (channel, thread_ts) of reply posts
  noticePosted : Bool := false
  deriving DecidableEq, Repr

/-- `getFreshGoogleAccessTokenForUser` (`services/googleTokenService.js`, in the
`services/gemini.js` file): loads the user's stored `refreshToken`, fails when
absent, otherwise exchanges it at the Google token endpoint and persists the
fresh `accessToken` onto the user row. -/
def getFreshGoogleAccessTokenForUser (db : Db) (env : Env) (userId : String) :
    Except String (String × Db) :=
  match db.findUserById userId with
  | none => .error "No Google refreshToken stored for this user. User must re-connect Google with offline access."
  | some u =>
      match u.refreshToken with
      | none => .error "No Google refreshToken stored for this user. User must re-connect Google with offline access."
      | some _ =>
          match env.refreshResult with
          | .error e => .error ("Failed to refresh Google access token: " ++ e)
          | .ok tok =>
              .ok (tok, { db with
                users := db.users.map (fun v => if v.id == userId then { v with accessToken := some tok } else v) })

/-! ## The events-API pull path, `src/routes/slack.js` variant

`slackRouter.post("/events")`: accepts a non-bot `message` event in a
`"group"` channel (no subtype or thread check), resolves the chat by
`slackChannelId`, the sender by `slackUserId`, discards on an existing
message with the event's `ts`, persists the human message (stamped and
synced), fetches Drive content with `chat.owner.accessToken` (the stored
access token, no refresh), calls Gemini, persists the assistant message,
posts it unthreaded and stamps the returned `ts`. Errors are only logged
(no channel notice). -/

def handleSlackEvent (db : Db) (env : Env) (event : SlackEvent) : Db × Effects :=
  if event.type == "message" && event.bot_id == none && event.channel_type == "group" then
    match db.findChatBySlackChannelId event.channel with
    | none => (db, {})
    | some chat =>
        match db.findUserBySlackUserId event.user with
        | none => (db, {})
        | some sender =>
            match db.findMessageBySlackTs event.ts with
            | some _ => (db, {})
            | none =>
                let humanMsg : Message :=
                  { chatId := chat.id, sender := "user", text := event.text,
                    userId := some sender.id, slackTs := some event.ts, syncedToSlack := true }
                let db1 := { db with messages := db.messages ++ [humanMsg] }
                let token := (db.findUserById chat.ownerId).bind (·.accessToken)
                match env.geminiResult with
                | .error _ =>
                    (db1, { llmCalled := true, driveFetched := true, driveToken := token })
                | .ok aiResponse =>
                    let aiMsg : Message :=
                      { chatId := chat.id, sender := "ai", text := aiResponse }
                    match env.postResult with
                    | .ok ts' =>
                        ({ db1 with messages := db1.messages ++
                            [{ aiMsg with slackTs := some ts', syncedToSlack := true }] },
                         { llmCalled := true, driveFetched := true, driveToken := token,
                           posts := [(event.channel, none)] })
                    | .error _ =>
                        ({ db1 with messages := db1.messages ++ [aiMsg] },
                         { llmCalled := true, driveFetched := true, driveToken := token })
  else (db, {})

/-! ## The events-API pull path, `src/routes/ai.js`-file variant

Differences: also requires no `subtype`, non-empty `text`, no `thread_ts`,
and accepts `"group"` or `"channel"` contexts; obtains the Drive token via
`getFreshGoogleAccessTokenForUser` (server-side refresh); replies in a
thread (`thread_ts: event.ts`); and on any failure best-effort posts an
error notice in the same thread. -/

/-- The `catch` block of the `ai.js`-file events handler: re-resolve the chat
by channel and, when the owner has a Slack token, post an in-thread notice. -/
def aiEventErrorNotice (db : Db) (env : Env) (event : SlackEvent) (eff : Effects) :
    Db × Effects :=
  match db.findChatBySlackChannelId event.channel with
  | none => (db, eff)
  | some chat =>
      match (db.findUserById chat.ownerId).bind (·.slackAccessToken) with
      | none => (db, eff)
      | some _ =>
          if env.noticePostOk then (db, { eff with noticePosted := true })
          else (db, eff)

def handleAiEvent (db : Db) (env : Env) (event : SlackEvent) : Db × Effects :=
  if event.type == "message" && event.subtype == none && event.bot_id == none
      && event.text != "" && event.thread_ts == none
      && (event.channel_type == "group" || event.channel_type == "channel") then
    match db.findChatBySlackChannelId event.channel with
    | none => (db, {})
    | some chat =>
        match db.findUserBySlackUserId event.user with
        | none => (db, {})
        | some sender =>
            match db.findMessageBySlackTs event.ts with
            | some _ => (db, {})
            | none =>
                let humanMsg : Message :=
                  { chatId := chat.id, sender := "user", text := event.text,
                    userId := some sender.id, slackTs := some event.ts, syncedToSlack := true }
                let db1 := { db with messages := db.messages ++ [humanMsg] }
                match getFreshGoogleAccessTokenForUser db1 env chat.ownerId with
                | .error _ => aiEventErrorNotice db1 env event { refreshCalled := true }
                | .ok (tok, db2) =>
                    let eff : Effects :=
                      { refreshCalled := true, driveFetched := true, driveToken := some tok }
                    match env.geminiResult with
                    | .error _ => aiEventErrorNotice db2 env event { eff with llmCalled := true }
                    | .ok aiResponse =>
                        let aiMsg : Message :=
                          { chatId := chat.id, sender := "ai", text := aiResponse }
                        let db3 := { db2 with messages := db2.messages ++ [aiMsg] }
                        match env.postResult with
                        | .ok ts' =>
                            ({ db2 with messages := db2.messages ++
                                [{ aiMsg with slackTs := some ts', syncedToSlack := true }] },
                             { eff with llmCalled := true, posts := [(event.channel, some event.ts)] })
                        | .error _ =>
                            aiEventErrorNotice db3 env event { eff with llmCalled := true }
  else (db, {})

/-! ## The interactive push path, `aiRouter.post("/prompt")` (`src/routes/ai.js`)

Creates the human message (no Slack metadata), pushes its text to the mapped
channel when one exists (the returned `ts` is discarded and the user message
row is not updated; note the push is gated on and performed with the *Google*
access token), calls Gemini, creates the assistant message, pushes it with the
owner's Slack token and, on success, stamps the returned `ts` onto the
assistant message and marks it synced. -/

structure PromptEnv where
  userPostResult : Except String String  -- ts assigned to the pushed user message
  geminiResult : Except String String
  aiPostResult : Except String String    -- ts assigned to the pushed assistant message
  deriving Repr

structure PromptEffects where
  userPushAttempted : Bool := false
  userPushToken : Option String := none
  aiPushAttempted : Bool := false
  aiPushToken : Option String := none
  llmCalled : Bool := false
  deriving DecidableEq, Repr

/-- The `/ai/prompt` handler from the message-creation step onward (the request
validations and prompt assembly precede it and touch no Slack state); `user` is
the session user, `googleAccessToken` the `req.googleAccessToken` value. -/
def handlePrompt (db : Db) (env : PromptEnv) (user : User)
    (googleAccessToken : Option String) (chat : Chat) (userPrompt : String) :
    Db × PromptEffects × Except String String :=
  let userMsg : Message :=
    { chatId := chat.id, sender := "user", text := userPrompt, userId := some user.id }
  let db1 := { db with messages := db.messages ++ [userMsg] }
  let eff1 : PromptEffects :=
    match chat.slackChannelId, googleAccessToken with
    | some _, some gtok => { userPushAttempted := true, userPushToken := some gtok }
    | _, _ => {}
  match env.geminiResult with
  | .error e => (db1, { eff1 with llmCalled := true }, .error e)
  | .ok aiResponse =>
      let aiMsg : Message := { chatId := chat.id, sender := "ai", text := aiResponse }
      match chat.slackChannelId, user.slackAccessToken with
      | some _, some stok =>
          let eff2 := { eff1 with llmCalled := true, aiPushAttempted := true, aiPushToken := some stok }
          match env.aiPostResult with
          | .ok ts' =>
              ({ db1 with messages := db1.messages ++
                  [{ aiMsg with slackTs := some ts', syncedToSlack := true }] },
               eff2, .ok aiResponse)
          | .error _ =>
              ({ db1 with messages := db1.messages ++ [aiMsg] }, eff2, .ok aiResponse)
      | _, _ =>
          ({ db1 with messages := db1.messages ++ [aiMsg] },
           { eff1 with llmCalled := true }, .ok aiResponse)

/-! ## Channel Directory (`services/slackChannelManager.js`) -/

structure ChannelEffects where
  createCalled : Bool := false
  topicSet : Bool := false
  initPosted : Bool := false
  deriving DecidableEq, Repr

/-- `getOrCreateSlackChannel(chat, ownerSlackToken)`: returns the stored
binding unchanged when present; otherwise creates a private channel named by
`sanitizeChannelName`, persists the binding on the chat, sets the topic and
posts the init message. `createResult` is the platform's answer to
`conversations.create` (`.ok` carries `result.channel.id`). -/
def getOrCreateSlackChannel (chat : Chat) (createResult : Except String String) :
    Except String String × Chat × ChannelEffects :=
  match chat.slackChannelId with
  | some cid => (.ok cid, chat, {})
  | none =>
      let channelName := slackChannelManager.sanitizeChannelName chat.name chat.id
      match createResult with
      | .error e => (.error e, chat, { createCalled := true })
      | .ok channelId =>
          (.ok channelId,
           { chat with slackChannelId := some channelId,
                       slackChannelName := some channelName },
           { createCalled := true, topicSet := true, initPosted := true })

/-! ## Lifecycle rename (`services/slackChatSync.js`) -/

/-- Platform error codes the rename path distinguishes. -/
inductive SlackErr
  | name_taken
  | other (code : String)
  deriving DecidableEq, Repr

structure RenameOut where
  ok : Bool
  renamed : Bool := false
  channelName : Option String := none
  reason : Option String := none
  fallbackUsed : Bool := false
  deriving DecidableEq, Repr

/-- Persist a new `slackChannelName` on a chat row. -/
def Db.setChatChannelName (db : Db) (chatId newName : String) : Db :=
  { db with chats := db.chats.map (fun c =>
      if c.id == chatId then { c with slackChannelName := some newName } else c) }

/-- `renameSlackChannelForChat(chatId)`: no-op without a chat, a binding or an
owner Slack token; no-op when the stored name already equals the sanitized
desired name; otherwise renames (`platform name` is `conversations.rename`,
`.ok` carrying the final `result.channel.name`), retrying exactly once with
the `-1`-suffixed fallback on `name_taken`, and persists whichever name
succeeded. The `Nat` counts the platform rename calls made. -/
def renameSlackChannelForChat (db : Db) (platform : String → Except SlackErr String)
    (chatId : String) : Db × RenameOut × Nat :=
  match db.chats.find? (fun c => c.id == chatId) with
  | none => (db, { ok := false, reason := some "chat_not_found" }, 0)
  | some chat =>
      match chat.slackChannelId with
      | none => (db, { ok := false, reason := some "no_slack_channel" }, 0)
      | some _ =>
          match (db.findUserById chat.ownerId).bind (·.slackAccessToken) with
          | none => (db, { ok := false, reason := some "no_slack_token" }, 0)
          | some _ =>
              let desiredName := slackChatSync.sanitizeChannelName chat.name chat.id
              if chat.slackChannelName == some desiredName then
                (db, { ok := true, renamed := false, channelName := some desiredName }, 0)
              else
                match platform desiredName with
                | .ok newName =>
                    (db.setChatChannelName chatId newName,
                     { ok := true, renamed := true, channelName := some newName }, 1)
                | .error .name_taken =>
                    let fallback := slackChatSync.sanitizeChannelName (chat.name ++ "-1") chat.id
                    match platform fallback with
                    | .ok retryName =>
                        (db.setChatChannelName chatId retryName,
                         { ok := true, renamed := true, channelName := some retryName,
                           fallbackUsed := true }, 2)
                    | .error _ =>
                        (db, { ok := false, reason := some "rename_failed" }, 2)
                | .error (.other _) =>
                    (db, { ok := false, reason := some "rename_failed" }, 1)

/-! ## Concrete fixtures used by witnesses and counterexamples -/

/-- A user with both identities linked and both Google tokens stored. -/
def sampleUser : User :=
  { id := "u1", email := "a@b.c", slackUserId := some "U1",
    slackAccessToken := some "xoxb-token", accessToken := some "gtok",
    refreshToken := some "rtok" }

/-- The same user without a stored Google refresh token. -/
def sampleUserNoRefresh : User := { sampleUser with refreshToken := none }

def sampleChat : Chat :=
  { id := "chat-ab12cd34", ownerId := "u1", name := "Budget",
    slackChannelId := some "C1", slackChannelName := some "esme-budget-ab12cd34" }

def sampleDb : Db := { users := [sampleUser], chats := [sampleChat], messages := [] }

def sampleDbNoRefresh : Db := { sampleDb with users := [sampleUserNoRefresh] }

def sampleEvent : SlackEvent :=
  { type := "message", channel_type := "group", channel := "C1",
    user := "U1", ts := "111.222", text := "What is the budget?" }

def sampleEnv : Env :=
  { geminiResult := .ok "the answer", refreshResult := .ok "fresh-gtok",
    postResult := .ok "333.444", noticePostOk := true }

/-! ## Helper lemmas -/

/-- Count of stored messages carrying a given external message id. -/
def countWithSlackTs (msgs : List Message) (ts : String) : Nat :=
  (msgs.filter (fun m => m.slackTs == some ts)).length

/-- The `slack.js` events handler discards any event whose `ts` some stored
message (of any conversation) already carries. -/
theorem handleSlackEvent_discard_of_mem (db : Db) (env : Env) (event : SlackEvent)
    (m : Message) (hm : m ∈ db.messages) (hts : m.slackTs = some event.ts) :
    handleSlackEvent db env event = (db, {}) := by
  unfold handleSlackEvent
  split
  · cases hc : db.findChatBySlackChannelId event.channel with
    | none => rfl
    | some chat =>
        cases hu : db.findUserBySlackUserId event.user with
        | none => rfl
        | some sender =>
            have hsome : (db.findMessageBySlackTs event.ts).isSome := by
              unfold Db.findMessageBySlackTs
              exact List.find?_isSome.mpr ⟨m, hm, by simp [hts]⟩
            obtain ⟨m', hm'⟩ := Option.isSome_iff_exists.mp hsome
            rw [hm']
  · rfl

/-- On a fresh event (guards pass, chat and sender resolve, no stored message
carries the event's `ts`, and the platform never assigns the event's own `ts`
to the reply post) the `slack.js` events handler appends the stamped human
message, and the count of messages carrying the event's `ts` grows by one. -/
theorem handleSlackEvent_insert (db : Db) (env : Env) (event : SlackEvent)
    (chat : Chat) (sender : User)
    (htype : event.type = "message") (hbot : event.bot_id = none)
    (hct : event.channel_type = "group")
    (hc : db.findChatBySlackChannelId event.channel = some chat)
    (hu : db.findUserBySlackUserId event.user = some sender)
    (hnone : db.findMessageBySlackTs event.ts = none)
    (hpost : env.postResult ≠ .ok event.ts) :
    (∃ m ∈ (handleSlackEvent db env event).1.messages, m.slackTs = some event.ts) ∧
    countWithSlackTs (handleSlackEvent db env event).1.messages event.ts =
      countWithSlackTs db.messages event.ts + 1 := by
  unfold handleSlackEvent
  simp only [htype, hbot, hct, hc, hu, hnone]
  have hguard : (("message" == "message") && ((none : Option String) == none) &&
      ("group" == "group")) = true := by decide
  simp only [hguard, if_true]
  cases hg : env.geminiResult with
  | error e =>
      refine ⟨⟨_, List.mem_append_right _ (List.mem_singleton.mpr rfl), rfl⟩, ?_⟩
      simp [countWithSlackTs, List.filter_append]
  | ok resp =>
      cases hp : env.postResult with
      | ok ts' =>
          have hts' : (some ts' == some event.ts) = false := by
            have hne : ts' ≠ event.ts := fun h => hpost (h ▸ hp)
            simp [hne]
          refine ⟨⟨_, List.mem_append_left _ (List.mem_append_right _ (List.mem_singleton.mpr rfl)), rfl⟩, ?_⟩
          simp [countWithSlackTs, List.filter_append, hts']
      | error _ =>
          refine ⟨⟨_, List.mem_append_left _ (List.mem_append_right _ (List.mem_singleton.mpr rfl)), rfl⟩, ?_⟩
          simp [countWithSlackTs, List.filter_append]

/-! ## Claims -/

/-- **C7.** `getOrCreateSlackChannel` is idempotent: with an existing binding it
returns the stored external channel id unchanged, makes no platform call and
writes nothing; called twice sequentially starting from no binding, the first
call stores exactly one binding and the second call is a no-op returning the
same id. -/
theorem c7_ensure_channel_idempotent :
    (∀ (chat : Chat) (cid : String) (r : Except String String),
      chat.slackChannelId = some cid →
      getOrCreateSlackChannel chat r = (.ok cid, chat, {})) ∧
    (∀ (chat : Chat) (newId : String) (r2 : Except String String),
      chat.slackChannelId = none →
      ∃ chat1,
        getOrCreateSlackChannel chat (.ok newId) =
          (.ok newId, chat1, { createCalled := true, topicSet := true, initPosted := true }) ∧
        chat1.slackChannelId = some newId ∧
        chat1.slackChannelName =
          some (slackChannelManager.sanitizeChannelName chat.name chat.id) ∧
        getOrCreateSlackChannel chat1 r2 = (.ok newId, chat1, {})) := by
  constructor
  · intro chat cid r h
    unfold getOrCreateSlackChannel
    rw [h]
  · intro chat newId r2 h
    refine ⟨{ chat with slackChannelId := some newId,
                        slackChannelName := some (slackChannelManager.sanitizeChannelName chat.name chat.id) },
            ?_, rfl, rfl, ?_⟩
    · unfold getOrCreateSlackChannel
      rw [h]
    · unfold getOrCreateSlackChannel
      rfl

/-- Witness for C7 at a concrete conversation with no binding. -/
theorem c7_witness :
    ∃ chat1,
      getOrCreateSlackChannel { sampleChat with slackChannelId := none } (.ok "C9") =
        (.ok "C9", chat1, { createCalled := true, topicSet := true, initPosted := true }) ∧
      chat1.slackChannelId = some "C9" ∧
      chat1.slackChannelName = some (slackChannelManager.sanitizeChannelName
        { sampleChat with slackChannelId := none }.name
        { sampleChat with slackChannelId := none }.id) ∧
      getOrCreateSlackChannel chat1 (.error "down") = (.ok "C9", chat1, {}) :=
  c7_ensure_channel_idempotent.2 { sampleChat with slackChannelId := none } "C9"
    (.error "down") rfl

/-- **C10.** The duplicate-suppression lookup of the `slack.js` events handler
is global: whenever any stored message of any conversation carries the event's
`ts`, the event is discarded — the database is unchanged and no effect (in
particular no LLM call and no post) is produced. -/
theorem c10_dedup_lookup_is_global (db : Db) (env : Env) (event : SlackEvent)
    (m : Message) (hm : m ∈ db.messages) (hts : m.slackTs = some event.ts) :
    handleSlackEvent db env event = (db, {}) :=
  handleSlackEvent_discard_of_mem db env event m hm hts

/-- Witness for C10: the blocking message belongs to a *different* conversation
(`chat-other`) than the one mapped to the event's channel, and the event is
still discarded. -/
theorem c10_witness :
    handleSlackEvent
      { sampleDb with messages :=
          [{ chatId := "chat-other", sender := "user", text := "elsewhere",
             slackTs := some "111.222" }] }
      sampleEnv sampleEvent =
      ({ sampleDb with messages :=
          [{ chatId := "chat-other", sender := "user", text := "elsewhere",
             slackTs := some "111.222" }] }, {}) :=
  c10_dedup_lookup_is_global _ sampleEnv sampleEvent
    { chatId := "chat-other", sender := "user", text := "elsewhere",
      slackTs := some "111.222" }
    (List.mem_singleton.mpr rfl) rfl

/-- **C2.** Redelivery is suppressed: on a fresh event that passes the guards
and resolves to a chat and sender, delivering the event any number `n ≥ 1` of
times (in particular `N ≥ 2` times) to the `slack.js` events handler leaves
exactly one stored message carrying the event's external message id — the
lookup-before-insert check discards every delivery after the first. -/
theorem c2_redelivery_creates_exactly_one_message (db : Db) (env : Env)
    (event : SlackEvent) (chat : Chat) (sender : User)
    (htype : event.type = "message") (hbot : event.bot_id = none)
    (hct : event.channel_type = "group")
    (hc : db.findChatBySlackChannelId event.channel = some chat)
    (hu : db.findUserBySlackUserId event.user = some sender)
    (hnone : db.findMessageBySlackTs event.ts = none)
    (hpost : env.postResult ≠ .ok event.ts) :
    ∀ n, 1 ≤ n →
      countWithSlackTs
        ((fun d => (handleSlackEvent d env event).1)^[n] db).messages event.ts = 1 := by
  obtain ⟨⟨m1, hm1, hts1⟩, hcount⟩ :=
    handleSlackEvent_insert db env event chat sender htype hbot hct hc hu hnone hpost
  have hzero : countWithSlackTs db.messages event.ts = 0 := by
    unfold countWithSlackTs
    rw [List.length_eq_zero, List.filter_eq_nil_iff]
    intro a ha
    have := List.find?_eq_none.mp hnone a ha
    simpa using this
  have hfix : handleSlackEvent (handleSlackEvent db env event).1 env event =
      ((handleSlackEvent db env event).1, {}) :=
    handleSlackEvent_discard_of_mem _ _ _ m1 hm1 hts1
  have hiter : ∀ k, (fun d => (handleSlackEvent d env event).1)^[k + 1] db =
      (handleSlackEvent db env event).1 := by
    intro k
    induction k with
    | zero => rfl
    | succ j ih =>
        rw [Function.iterate_succ_apply', ih]
        simp [hfix]
  intro n hn
  obtain ⟨k, rfl⟩ : ∃ k, n = k + 1 := ⟨n - 1, (Nat.succ_pred_eq_of_pos hn).symm⟩
  rw [hiter k, hcount, hzero]

/-- Witness for C2: two deliveries of the same concrete event leave exactly
one message with its `ts`. -/
theorem c2_witness :
    countWithSlackTs
      ((fun d => (handleSlackEvent d sampleEnv sampleEvent).1)^[2] sampleDb).messages
      sampleEvent.ts = 1 :=
  c2_redelivery_creates_exactly_one_message sampleDb sampleEnv sampleEvent
    sampleChat sampleUser rfl rfl rfl rfl rfl rfl
    (fun h => absurd (Except.ok.inj h) (by decide)) 2 (by decide)

/-- **C9.** `renameSlackChannelForChat` is a no-op with no platform call when no
binding exists or when the sanitized desired name already matches the stored
name; on a `name_taken` failure it retries exactly once with the fallback
obtained by appending `-1` to the conversation name before sanitization and
persists whichever name succeeded; any other failure is reported after a
single call, and a failed retry is reported after exactly two calls. -/
theorem c9_rename_noop_and_single_retry :
    -- (no binding) no platform call, nothing persisted
    (∀ (db : Db) (platform : String → Except SlackErr String) (chatId : String) (chat : Chat),
      db.chats.find? (fun c => c.id == chatId) = some chat →
      chat.slackChannelId = none →
      renameSlackChannelForChat db platform chatId =
        (db, { ok := false, reason := some "no_slack_channel" }, 0)) ∧
    -- (already matching) no platform call, nothing persisted
    (∀ (db : Db) (platform : String → Except SlackErr String) (chatId : String)
       (chat : Chat) (cid tok : String),
      db.chats.find? (fun c => c.id == chatId) = some chat →
      chat.slackChannelId = some cid →
      (db.findUserById chat.ownerId).bind (·.slackAccessToken) = some tok →
      chat.slackChannelName = some (slackChatSync.sanitizeChannelName chat.name chat.id) →
      renameSlackChannelForChat db platform chatId =
        (db, { ok := true, renamed := false,
               channelName := some (slackChatSync.sanitizeChannelName chat.name chat.id) }, 0)) ∧
    -- (first try succeeds) one call, new name persisted
    (∀ (db : Db) (platform : String → Except SlackErr String) (chatId : String)
       (chat : Chat) (cid tok newName : String),
      db.chats.find? (fun c => c.id == chatId) = some chat →
      chat.slackChannelId = some cid →
      (db.findUserById chat.ownerId).bind (·.slackAccessToken) = some tok →
      chat.slackChannelName ≠ some (slackChatSync.sanitizeChannelName chat.name chat.id) →
      platform (slackChatSync.sanitizeChannelName chat.name chat.id) = .ok newName →
      renameSlackChannelForChat db platform chatId =
        (db.setChatChannelName chatId newName,
         { ok := true, renamed := true, channelName := some newName }, 1)) ∧
    -- (name_taken, retry succeeds) exactly two calls, fallback persisted
    (∀ (db : Db) (platform : String → Except SlackErr String) (chatId : String)
       (chat : Chat) (cid tok retryName : String),
      db.chats.find? (fun c => c.id == chatId) = some chat →
      chat.slackChannelId = some cid →
      (db.findUserById chat.ownerId).bind (·.slackAccessToken) = some tok →
      chat.slackChannelName ≠ some (slackChatSync.sanitizeChannelName chat.name chat.id) →
      platform (slackChatSync.sanitizeChannelName chat.name chat.id) = .error .name_taken →
      platform (slackChatSync.sanitizeChannelName (chat.name ++ "-1") chat.id) = .ok retryName →
      renameSlackChannelForChat db platform chatId =
        (db.setChatChannelName chatId retryName,
         { ok := true, renamed := true, channelName := some retryName,
           fallbackUsed := true }, 2)) ∧
    -- (name_taken, retry fails) exactly two calls, failure reported, nothing persisted
    (∀ (db : Db) (platform : String → Except SlackErr String) (chatId : String)
       (chat : Chat) (cid tok : String) (e2 : SlackErr),
      db.chats.find? (fun c => c.id == chatId) = some chat →
      chat.slackChannelId = some cid →
      (db.findUserById chat.ownerId).bind (·.slackAccessToken) = some tok →
      chat.slackChannelName ≠ some (slackChatSync.sanitizeChannelName chat.name chat.id) →
      platform (slackChatSync.sanitizeChannelName chat.name chat.id) = .error .name_taken →
      platform (slackChatSync.sanitizeChannelName (chat.name ++ "-1") chat.id) = .error e2 →
      renameSlackChannelForChat db platform chatId =
        (db, { ok := false, reason := some "rename_failed" }, 2)) ∧
    -- (other failure) a single call, failure reported, no retry
    (∀ (db : Db) (platform : String → Except SlackErr String) (chatId : String)
       (chat : Chat) (cid tok code : String),
      db.chats.find? (fun c => c.id == chatId) = some chat →
      chat.slackChannelId = some cid →
      (db.findUserById chat.ownerId).bind (·.slackAccessToken) = some tok →
      chat.slackChannelName ≠ some (slackChatSync.sanitizeChannelName chat.name chat.id) →
      platform (slackChatSync.sanitizeChannelName chat.name chat.id) = .error (.other code) →
      renameSlackChannelForChat db platform chatId =
        (db, { ok := false, reason := some "rename_failed" }, 1)) := by
  refine ⟨?_, ?_, ?_, ?_, ?_, ?_⟩
  · intro db platform chatId chat hfind hnone
    unfold renameSlackChannelForChat
    simp only [hfind, hnone]
  · intro db platform chatId chat cid tok hfind hcid htok hsame
    unfold renameSlackChannelForChat
    simp only [hfind, hcid, htok, hsame, beq_self_eq_true, if_true]
  · intro db platform chatId chat cid tok newName hfind hcid htok hdiff hplat
    have hb := beq_eq_false_iff_ne.mpr hdiff
    unfold renameSlackChannelForChat
    simp only [hfind, hcid, htok, hb, Bool.false_eq_true, if_false, hplat]
  · intro db platform chatId chat cid tok retryName hfind hcid htok hdiff hp1 hp2
    have hb := beq_eq_false_iff_ne.mpr hdiff
    unfold renameSlackChannelForChat
    simp only [hfind, hcid, htok, hb, Bool.false_eq_true, if_false, hp1, hp2]
  · intro db platform chatId chat cid tok e2 hfind hcid htok hdiff hp1 hp2
    have hb := beq_eq_false_iff_ne.mpr hdiff
    unfold renameSlackChannelForChat
    simp only [hfind, hcid, htok, hb, Bool.false_eq_true, if_false, hp1, hp2]
  · intro db platform chatId chat cid tok code hfind hcid htok hdiff hplat
    have hb := beq_eq_false_iff_ne.mpr hdiff
    unfold renameSlackChannelForChat
    simp only [hfind, hcid, htok, hb, Bool.false_eq_true, if_false, hplat]

/-- Witness for C9: a concrete rename whose desired name is taken falls back
to the `-1`-suffixed name, which is persisted after exactly two calls; and a
conversation whose stored name already matches makes no call. -/
theorem c9_witness :
    renameSlackChannelForChat
      { sampleDb with chats := [{ sampleChat with name := "Plans" }] }
      (fun n => if n == "esme-plans-ab12cd34" then .error .name_taken else .ok n)
      "chat-ab12cd34" =
      ({ sampleDb with chats := [{ sampleChat with name := "Plans" }] }.setChatChannelName
          "chat-ab12cd34" "esme-plans-1-ab12cd34",
       { ok := true, renamed := true, channelName := some "esme-plans-1-ab12cd34",
         fallbackUsed := true }, 2) ∧
    renameSlackChannelForChat
      { sampleDb with chats := [{ sampleChat with name := "Budget" }] }
      (fun n => .ok n) "chat-ab12cd34" =
      ({ sampleDb with chats := [{ sampleChat with name := "Budget" }] },
       { ok := true, renamed := false, channelName := some "esme-budget-ab12cd34" }, 0) :=
  ⟨by
    have h := c9_rename_noop_and_single_retry.2.2.2.1
      { sampleDb with chats := [{ sampleChat with name := "Plans" }] }
      (fun n => if n == "esme-plans-ab12cd34" then .error .name_taken else .ok n)
      "chat-ab12cd34" { sampleChat with name := "Plans" } "C1" "xoxb-token"
      "esme-plans-1-ab12cd34" rfl rfl rfl (by decide) rfl rfl
    simpa using h,
   by
    have h := c9_rename_noop_and_single_retry.2.1
      { sampleDb with chats := [{ sampleChat with name := "Budget" }] }
      (fun n => .ok n) "chat-ab12cd34" { sampleChat with name := "Budget" }
      "C1" "xoxb-token" rfl rfl rfl (by decide)
    simpa using h⟩

/-! ### C4 — event-shape filters of the pull path -/

/-- The `slack.js` events handler does nothing when its guard
(`message`, non-bot, `group`) is false. -/
theorem handleSlackEvent_not_triggered (db : Db) (env : Env) (e : SlackEvent)
    (h : (e.type == "message" && e.bot_id == none && e.channel_type == "group") = false) :
    handleSlackEvent db env e = (db, {}) := by
  unfold handleSlackEvent
  simp [h]

/-- The `ai.js`-file events handler does nothing when its guard is false. -/
theorem handleAiEvent_not_triggered (db : Db) (env : Env) (e : SlackEvent)
    (h : (e.type == "message" && e.subtype == none && e.bot_id == none
          && e.text != "" && e.thread_ts == none
          && (e.channel_type == "group" || e.channel_type == "channel")) = false) :
    handleAiEvent db env e = (db, {}) := by
  unfold handleAiEvent
  simp [h]

/-- **C4 counterexample.** The claim says a thread reply triggers neither
message persistence nor an LLM call; but the `slack.js` events handler has no
`thread_ts` check: a thread reply in a `group` channel is persisted and
triggers generation. -/
theorem c4_counterexample_thread_reply_processed :
    (handleSlackEvent sampleDb sampleEnv
      { sampleEvent with thread_ts := some "9.9" }).2.llmCalled = true ∧
    (handleSlackEvent sampleDb sampleEnv
      { sampleEvent with thread_ts := some "9.9" }).1.messages.length = 2 := by
  constructor
  · rfl
  · rfl

/-- **C4 (amended).** Direct messages and bot messages trigger neither message
persistence nor an LLM call in both events-handler variants; thread replies
are excluded by the `ai.js`-file handler (which also requires no subtype and
non-empty text), while the `slack.js` handler checks only the type, bot and
group-context conditions. -/
theorem c4_amended_event_filters :
    (∀ (db : Db) (env : Env) (e : SlackEvent),
      e.channel_type = "im" → handleSlackEvent db env e = (db, {})) ∧
    (∀ (db : Db) (env : Env) (e : SlackEvent) (b : String),
      e.bot_id = some b → handleSlackEvent db env e = (db, {})) ∧
    (∀ (db : Db) (env : Env) (e : SlackEvent),
      e.channel_type = "im" → handleAiEvent db env e = (db, {})) ∧
    (∀ (db : Db) (env : Env) (e : SlackEvent) (t : String),
      e.thread_ts = some t → handleAiEvent db env e = (db, {})) ∧
    (∀ (db : Db) (env : Env) (e : SlackEvent) (b : String),
      e.bot_id = some b → handleAiEvent db env e = (db, {})) := by
  have him : ("im" == "group") = false := by decide
  have himc : ("im" == "channel") = false := by decide
  refine ⟨?_, ?_, ?_, ?_, ?_⟩
  · intro db env e h
    exact handleSlackEvent_not_triggered db env e (by rw [h]; simp)
  · intro db env e b h
    exact handleSlackEvent_not_triggered db env e (by rw [h]; simp)
  · intro db env e h
    exact handleAiEvent_not_triggered db env e (by rw [h]; simp)
  · intro db env e t h
    exact handleAiEvent_not_triggered db env e (by rw [h]; simp)
  · intro db env e b h
    exact handleAiEvent_not_triggered db env e (by rw [h]; simp)

/-- Witness for the amended C4 at concrete direct-message, thread-reply and
bot events. -/
theorem c4_witness :
    handleSlackEvent sampleDb sampleEnv { sampleEvent with channel_type := "im" } =
      (sampleDb, {}) ∧
    handleAiEvent sampleDb sampleEnv { sampleEvent with thread_ts := some "9.9" } =
      (sampleDb, {}) ∧
    handleAiEvent sampleDb sampleEnv { sampleEvent with bot_id := some "B7" } =
      (sampleDb, {}) :=
  ⟨c4_amended_event_filters.1 sampleDb sampleEnv _ rfl,
   c4_amended_event_filters.2.2.2.1 sampleDb sampleEnv _ "9.9" rfl,
   c4_amended_event_filters.2.2.2.2 sampleDb sampleEnv _ "B7" rfl⟩

/-! ### C5 — Drive token acquisition and the missing-refresh-token scenario -/

/-- **C5 counterexample.** The claim says the pull path obtains the Drive
token by refreshing the owner's stored refresh token, and that an owner with
no stored refresh token gets a posted error notice and no assistant message.
The `slack.js` events handler contradicts both parts: with the owner's
refresh token absent it still fetches documents with the owner's *stored*
access token (`chat.owner.accessToken`, no refresh), creates an assistant
message, and posts no notice. -/
theorem c5_counterexample_no_refresh_still_answers :
    (handleSlackEvent sampleDbNoRefresh sampleEnv sampleEvent).2.refreshCalled = false ∧
    (handleSlackEvent sampleDbNoRefresh sampleEnv sampleEvent).2.driveToken = some "gtok" ∧
    (handleSlackEvent sampleDbNoRefresh sampleEnv sampleEvent).2.noticePosted = false ∧
    ((handleSlackEvent sampleDbNoRefresh sampleEnv sampleEvent).1.messages.filter
      (fun m => m.sender == "ai")).length = 1 := by
  refine ⟨rfl, rfl, rfl, rfl⟩

/-- `aiEventErrorNotice` never changes the database and only ever sets the
`noticePosted` flag of the effects it is given. -/
theorem aiEventErrorNotice_preserves (db : Db) (env : Env) (e : SlackEvent) (eff : Effects) :
    (aiEventErrorNotice db env e eff).1 = db ∧
    (aiEventErrorNotice db env e eff).2.refreshCalled = eff.refreshCalled ∧
    (aiEventErrorNotice db env e eff).2.driveToken = eff.driveToken := by
  unfold aiEventErrorNotice
  cases hx : db.findChatBySlackChannelId e.channel with
  | none => exact ⟨rfl, rfl, rfl⟩
  | some c =>
      dsimp only
      cases hy : (db.findUserById c.ownerId).bind (·.slackAccessToken) with
      | none => exact ⟨rfl, rfl, rfl⟩
      | some _ =>
          dsimp only
          by_cases h : env.noticePostOk = true
          · simp [h]
          · simp [eq_false_of_ne_true h]

/-- **C5 (amended).** In the `ai.js`-file events handler the claim holds: the
Drive token is the one returned by `getFreshGoogleAccessTokenForUser`
(refresh-token exchange), and an owner with no stored refresh token results in
a posted in-thread error notice and no assistant message (only the human
message is persisted). The `slack.js` handler instead uses the stored access
token and posts no notice (see the counterexample). -/
theorem c5_amended_refresh_token_path (db : Db) (env : Env) (e : SlackEvent)
    (chat : Chat) (sender owner : User)
    (htype : e.type = "message") (hsub : e.subtype = none) (hbot : e.bot_id = none)
    (htext : e.text ≠ "") (hthread : e.thread_ts = none)
    (hct : e.channel_type = "group" ∨ e.channel_type = "channel")
    (hc : db.findChatBySlackChannelId e.channel = some chat)
    (hu : db.findUserBySlackUserId e.user = some sender)
    (hnone : db.findMessageBySlackTs e.ts = none)
    (howner : db.findUserById chat.ownerId = some owner) :
    -- (a) with a stored refresh token and a successful exchange, the Drive
    -- fetch uses exactly the refreshed token
    (∀ rt tok, owner.refreshToken = some rt → env.refreshResult = .ok tok →
      (handleAiEvent db env e).2.refreshCalled = true ∧
      (handleAiEvent db env e).2.driveToken = some tok) ∧
    -- (b) with no stored refresh token, the handler posts the in-thread error
    -- notice and adds no assistant message
    (∀ stok, owner.refreshToken = none → owner.slackAccessToken = some stok →
      env.noticePostOk = true →
      handleAiEvent db env e =
        ({ db with messages := db.messages ++
            [{ chatId := chat.id, sender := "user", text := e.text,
               userId := some sender.id, slackTs := some e.ts, syncedToSlack := true }] },
         { refreshCalled := true, noticePosted := true })) := by
  have htextb : (e.text != "") = true := by
    simp [bne, beq_eq_false_iff_ne.mpr htext]
  have hguard : (e.type == "message" && e.subtype == none && e.bot_id == none
      && e.text != "" && e.thread_ts == none
      && (e.channel_type == "group" || e.channel_type == "channel")) = true := by
    rcases hct with h | h <;> simp [htype, hsub, hbot, htextb, hthread, h]
  have howner' : Db.findUserById { db with messages := db.messages ++
      [{ chatId := chat.id, sender := "user", text := e.text,
         userId := some sender.id, slackTs := some e.ts, syncedToSlack := true }] }
      chat.ownerId = some owner := howner
  constructor
  · intro rt tok hrt htok
    unfold handleAiEvent
    simp only [hguard, if_true, hc, hu, hnone]
    unfold getFreshGoogleAccessTokenForUser
    simp only [howner', hrt, htok]
    cases hg : env.geminiResult with
    | error _ =>
        refine ⟨((aiEventErrorNotice_preserves _ _ _ _).2.1).trans rfl,
                ((aiEventErrorNotice_preserves _ _ _ _).2.2).trans rfl⟩
    | ok resp =>
        cases hp : env.postResult with
        | ok ts2 => exact ⟨rfl, rfl⟩
        | error _ =>
            refine ⟨((aiEventErrorNotice_preserves _ _ _ _).2.1).trans rfl,
                    ((aiEventErrorNotice_preserves _ _ _ _).2.2).trans rfl⟩
  · intro stok hrt hstok hnotice
    unfold handleAiEvent
    simp only [hguard, if_true, hc, hu, hnone]
    unfold getFreshGoogleAccessTokenForUser
    simp only [howner', hrt]
    unfold aiEventErrorNotice
    have hc2 : Db.findChatBySlackChannelId { db with messages := db.messages ++
        [{ chatId := chat.id, sender := "user", text := e.text,
           userId := some sender.id, slackTs := some e.ts, syncedToSlack := true }] }
        e.channel = some chat := hc
    simp only [hc2, howner', Option.some_bind, hstok, hnotice, if_true]

/-- Witness for the amended C5: a concrete owner with no refresh token gets
the posted notice and only the human message. -/
theorem c5_witness :
    handleAiEvent sampleDbNoRefresh sampleEnv sampleEvent =
      ({ sampleDbNoRefresh with messages :=
          [{ chatId := "chat-ab12cd34", sender := "user", text := "What is the budget?",
             userId := some "u1", slackTs := some "111.222", syncedToSlack := true }] },
       { refreshCalled := true, noticePosted := true }) := by
  have h := (c5_amended_refresh_token_path sampleDbNoRefresh sampleEnv sampleEvent
    sampleChat sampleUserNoRefresh sampleUserNoRefresh rfl rfl rfl (by decide) rfl
    (Or.inl rfl) rfl rfl rfl rfl).2 "xoxb-token" rfl rfl rfl
  simpa using h

/-! ### C6 — persistence of the platform-assigned id on pushed messages -/

def samplePromptEnv : PromptEnv :=
  { userPostResult := .ok "1.2", geminiResult := .ok "the answer", aiPostResult := .ok "3.4" }

/-- **C6 counterexample.** The claim says every message pushed outward has the
returned platform id persisted and is marked synced; but the `/ai/prompt`
handler pushes the user message (a push is attempted) while the stored user
message keeps `slackTs = none` and `syncedToSlack = false` — the returned id
is discarded. -/
theorem c6_counterexample_user_push_not_persisted :
    (handlePrompt sampleDb samplePromptEnv sampleUser (some "gtok") sampleChat
      "question").2.1.userPushAttempted = true ∧
    (handlePrompt sampleDb samplePromptEnv sampleUser (some "gtok") sampleChat
      "question").1.messages.head? =
      some { chatId := "chat-ab12cd34", sender := "user", text := "question",
             userId := some "u1", slackTs := none, syncedToSlack := false } := by
  exact ⟨rfl, rfl⟩

/-- **C6 (amended).** For the *assistant* message the claim holds: when the chat
has a channel binding and the owner a Slack token, the `/ai/prompt` handler
stamps the platform-returned `ts` onto the assistant message and marks it
synced. The user message of the same handler is pushed without persisting the
returned identifier (see the counterexample; note its push is further gated on
and performed with the Google access token). -/
theorem c6_amended_assistant_push_persisted (db : Db) (env : PromptEnv) (user : User)
    (gtok : String) (chat : Chat) (prompt : String) (cid stok ai ts' : String)
    (hcid : chat.slackChannelId = some cid)
    (hstok : user.slackAccessToken = some stok)
    (hg : env.geminiResult = .ok ai)
    (hpost : env.aiPostResult = .ok ts') :
    handlePrompt db env user (some gtok) chat prompt =
      ({ db with messages := db.messages ++
          [{ chatId := chat.id, sender := "user", text := prompt, userId := some user.id },
           { chatId := chat.id, sender := "ai", text := ai,
             slackTs := some ts', syncedToSlack := true }] },
       { userPushAttempted := true, userPushToken := some gtok,
         aiPushAttempted := true, aiPushToken := some stok, llmCalled := true },
       .ok ai) := by
  unfold handlePrompt
  simp only [hcid, hstok, hg, hpost, List.append_assoc, List.singleton_append]

/-- Witness for the amended C6 at a concrete prompt. -/
theorem c6_witness :
    handlePrompt sampleDb samplePromptEnv sampleUser (some "gtok") sampleChat "question" =
      ({ sampleDb with messages :=
          [{ chatId := "chat-ab12cd34", sender := "user", text := "question",
             userId := some "u1" },
           { chatId := "chat-ab12cd34", sender := "ai", text := "the answer",
             slackTs := some "3.4", syncedToSlack := true }] },
       { userPushAttempted := true, userPushToken := some "gtok",
         aiPushAttempted := true, aiPushToken := some "xoxb-token", llmCalled := true },
       .ok "the answer") := by
  have h := c6_amended_assistant_push_persisted sampleDb samplePromptEnv sampleUser
    "gtok" sampleChat "question" "C1" "xoxb-token" "the answer" "3.4" rfl rfl rfl rfl
  simpa using h

/-! ### C8 — the channel-name derivation -/

/-- A 67-character conversation name, long enough to force truncation. -/
def longSampleName : String := String.mk (List.replicate 67 'a')

/-- **C8.** The `slackChannelManager.js` derivation satisfies the claim (the
stated scenario holds and a too-long name truncates to exactly 80 characters),
but the `slackChatSync.js` variant of `sanitizeChannelName` — whose own
comment says "max 80 chars" — returns `substring(0, 72) + "-" + suffix`,
i.e. **81** characters, whenever truncation triggers: the code contradicts
its documentation and the claimed 80-character bound. -/
theorem c8_chatsync_truncation_exceeds_max_length :
    (slackChatSync.sanitizeChannelName longSampleName "xxxxab12cd34").length = 81 ∧
    (slackChannelManager.sanitizeChannelName longSampleName "xxxxab12cd34").length = 80 ∧
    slackChannelManager.sanitizeChannelName "Q3 Planning Notes!!" "xxxxab12cd34" =
      "esme-q3-planning-notes-ab12cd34" ∧
    slackChatSync.sanitizeChannelName "Q3 Planning Notes!!" "xxxxab12cd34" =
      "esme-q3-planning-notes-ab12cd34" ∧
    (slackChatSync.sanitizeChannelName longSampleName "xxxxab12cd34").data.drop 73 =
      "ab12cd34".data ∧
    (slackChannelManager.sanitizeChannelName longSampleName "xxxxab12cd34").data.drop 72 =
      "ab12cd34".data := by
  refine ⟨by decide, by decide, by decide, by decide, by decide, by decide⟩

/-! ### C1 — the length guard before the constant-time comparison -/

set_option maxRecDepth 100000 in
/-- **C1.** The claim requires a length mismatch to be rejected *without*
invoking the constant-time comparator. The `ai.js`-file variant conforms
(clean 400, comparator not invoked), but `verifySlackRequest` in
`src/routes/slack.js` calls `crypto.timingSafeEqual` unconditionally: on a
short signature header the comparator is invoked and throws (an Express 500),
so the code contradicts the spec's stated requirement — evaluated here at a
concrete request whose signature header is `"v0=ab"` (length 5 ≠ 67). -/
theorem c1_length_mismatch_invokes_comparator :
    verifySlackRequest_slack (strBytes "hello") (some (strBytes "v0=ab"))
      (some 1700000000) (strBytes "s3cret") 1700000000 =
      ⟨.thrown, true⟩ ∧
    verifySlackRequest_ai (strBytes "hello") (some (strBytes "v0=ab"))
      (some 1700000000) (strBytes "s3cret") 1700000000 =
      ⟨.invalidSignature, false⟩ := by
  refine ⟨by decide, by decide⟩

/-! ### C3 — functional correctness of the signature verifier -/

/-- `x ^^^ 255 ≠ x`: complementing a byte always changes it. -/
theorem xor255_ne (x : Nat) : x ^^^ 255 ≠ x := by
  intro h
  have h2 := congrArg (fun y => y ^^^ x) h
  simp only at h2
  rw [Nat.xor_comm x 255, Nat.xor_assoc, Nat.xor_self, Nat.xor_zero] at h2
  exact absurd h2 (by decide)

/-- A single-byte flip inside the list changes the list. -/
theorem flipByte_ne (l : List Nat) (i : Nat) (h : i < l.length) : flipByte l i ≠ l := by
  intro heq
  have h1 := congrArg (fun t => t[i]?) heq
  simp only [flipByte] at h1
  rw [List.getElem?_set_self h, List.getElem?_eq_getElem h] at h1
  have h2 : l.getD i 0 ^^^ 255 = l[i] := Option.some.inj h1
  rw [List.getD_eq_getElem l 0 h] at h2
  exact xor255_ne l[i] h2

/-- The expected signature is never the empty byte string (it starts `v0=`). -/
theorem expectedSignature_ne_nil (secret : List Nat) (ts : Nat) (body : List Nat) :
    expectedSignature secret ts body ≠ [] := by
  unfold expectedSignature
  have hv : strBytes "v0=" = [118, 48, 61] := by decide
  rw [hv]
  simp

/-- Characterization of the `slack.js` verifier on present headers: the request
is accepted exactly when the timestamp is within the 300-second window and the
supplied signature equals the expected HMAC signature. -/
theorem verifySlackRequest_slack_accept_iff (body secret sig : List Nat) (ts now : Nat) :
    (verifySlackRequest_slack body (some sig) (some ts) secret now).outcome = .next ↔
    (((now : Int) - ts).natAbs ≤ 300 ∧ sig = expectedSignature secret ts body) := by
  unfold verifySlackRequest_slack
  dsimp only
  by_cases hnil : sig = []
  · rw [if_pos hnil]
    constructor
    · intro h
      exact absurd h (by decide)
    · rintro ⟨-, h⟩
      have hbad : expectedSignature secret ts body = [] := by rw [← h, hnil]
      exact absurd hbad (expectedSignature_ne_nil secret ts body)
  · rw [if_neg hnil]
    by_cases habs : 300 < ((now : Int) - ts).natAbs
    · rw [if_pos habs]
      constructor
      · intro h
        exact absurd h (by decide)
      · rintro ⟨h, -⟩
        omega
    · rw [if_neg habs]
      unfold timingSafeEqual
      by_cases hlen : (expectedSignature secret ts body).length = sig.length
      · rw [if_pos hlen]
        by_cases heq : expectedSignature secret ts body = sig
        · rw [decide_eq_true heq]
          constructor
          · intro _
            exact ⟨Nat.le_of_not_lt habs, heq.symm⟩
          · intro _
            rfl
        · rw [decide_eq_false heq]
          constructor
          · intro h
            exact absurd h (by decide)
          · rintro ⟨-, h⟩
            exact absurd h.symm heq
      · rw [if_neg hlen]
        constructor
        · intro h
          exact absurd h (by decide)
        · rintro ⟨-, h⟩
          exact (hlen (by rw [h])).elim

section FlipChecks

set_option maxRecDepth 1000000

set_option maxHeartbeats 1000000

/-- Flipping body byte `i` of the concrete request changes the expected HMAC,
so the verifier answers "Invalid signature" (one declaration per position keeps
each kernel computation small). -/
theorem bodyFlipRejected0 :
    (verifySlackRequest_slack (flipByte (strBytes "hello") 0)
      (some (expectedSignature (strBytes "s3cret") 1700000000 (strBytes "hello")))
      (some 1700000000) (strBytes "s3cret") 1700000000).outcome = .invalidSignature := by
  decide

theorem bodyFlipRejected1 :
    (verifySlackRequest_slack (flipByte (strBytes "hello") 1)
      (some (expectedSignature (strBytes "s3cret") 1700000000 (strBytes "hello")))
      (some 1700000000) (strBytes "s3cret") 1700000000).outcome = .invalidSignature := by
  decide

theorem bodyFlipRejected2 :
    (verifySlackRequest_slack (flipByte (strBytes "hello") 2)
      (some (expectedSignature (strBytes "s3cret") 1700000000 (strBytes "hello")))
      (some 1700000000) (strBytes "s3cret") 1700000000).outcome = .invalidSignature := by
  decide

theorem bodyFlipRejected3 :
    (verifySlackRequest_slack (flipByte (strBytes "hello") 3)
      (some (expectedSignature (strBytes "s3cret") 1700000000 (strBytes "hello")))
      (some 1700000000) (strBytes "s3cret") 1700000000).outcome = .invalidSignature := by
  decide

theorem bodyFlipRejected4 :
    (verifySlackRequest_slack (flipByte (strBytes "hello") 4)
      (some (expectedSignature (strBytes "s3cret") 1700000000 (strBytes "hello")))
      (some 1700000000) (strBytes "s3cret") 1700000000).outcome = .invalidSignature := by
  decide

/-- Flipping secret byte `i` of the concrete request changes the expected
HMAC, so the verifier answers "Invalid signature". -/
theorem secretFlipRejected0 :
    (verifySlackRequest_slack (strBytes "hello")
      (some (expectedSignature (strBytes "s3cret") 1700000000 (strBytes "hello")))
      (some 1700000000) (flipByte (strBytes "s3cret") 0) 1700000000).outcome =
      .invalidSignature := by
  decide

theorem secretFlipRejected1 :
    (verifySlackRequest_slack (strBytes "hello")
      (some (expectedSignature (strBytes "s3cret") 1700000000 (strBytes "hello")))
      (some 1700000000) (flipByte (strBytes "s3cret") 1) 1700000000).outcome =
      .invalidSignature := by
  decide

theorem secretFlipRejected2 :
    (verifySlackRequest_slack (strBytes "hello")
      (some (expectedSignature (strBytes "s3cret") 1700000000 (strBytes "hello")))
      (some 1700000000) (flipByte (strBytes "s3cret") 2) 1700000000).outcome =
      .invalidSignature := by
  decide

theorem secretFlipRejected3 :
    (verifySlackRequest_slack (strBytes "hello")
      (some (expectedSignature (strBytes "s3cret") 1700000000 (strBytes "hello")))
      (some 1700000000) (flipByte (strBytes "s3cret") 3) 1700000000).outcome =
      .invalidSignature := by
  decide

theorem secretFlipRejected4 :
    (verifySlackRequest_slack (strBytes "hello")
      (some (expectedSignature (strBytes "s3cret") 1700000000 (strBytes "hello")))
      (some 1700000000) (flipByte (strBytes "s3cret") 4) 1700000000).outcome =
      .invalidSignature := by
  decide

theorem secretFlipRejected5 :
    (verifySlackRequest_slack (strBytes "hello")
      (some (expectedSignature (strBytes "s3cret") 1700000000 (strBytes "hello")))
      (some 1700000000) (flipByte (strBytes "s3cret") 5) 1700000000).outcome =
      .invalidSignature := by
  decide

end FlipChecks

set_option maxRecDepth 1000000 in
set_option maxHeartbeats 2000000 in
/-- **C3.** The `slack.js` verifier: a signature computed with the signing
secret over the exact raw body within the 300-second window is accepted; a
supplied signature differing from the expected one — in particular any
single-byte flip of the signature header — is rejected; a timestamp more than
300 seconds from now is rejected even with the correct signature; an absent
header is rejected; and at a concrete request, flipping any single byte of
the body or of the secret changes the expected HMAC and the request is
rejected with "Invalid signature". -/
theorem c3_signature_verification :
    (∀ (body secret : List Nat) (ts now : Nat),
      ((now : Int) - ts).natAbs ≤ 300 →
      verifySlackRequest_slack body (some (expectedSignature secret ts body))
        (some ts) secret now = ⟨.next, true⟩) ∧
    (∀ (body secret sig : List Nat) (ts now : Nat),
      sig ≠ expectedSignature secret ts body →
      (verifySlackRequest_slack body (some sig) (some ts) secret now).outcome ≠ .next) ∧
    (∀ (body secret : List Nat) (ts now : Nat) (i : Nat),
      i < (expectedSignature secret ts body).length →
      (verifySlackRequest_slack body
        (some (flipByte (expectedSignature secret ts body) i))
        (some ts) secret now).outcome ≠ .next) ∧
    (∀ (body secret : List Nat) (ts now : Nat),
      300 < ((now : Int) - ts).natAbs →
      verifySlackRequest_slack body (some (expectedSignature secret ts body))
        (some ts) secret now = ⟨.tooOld, false⟩) ∧
    (∀ (body secret : List Nat) (tsOpt : Option Nat) (now : Nat),
      verifySlackRequest_slack body none tsOpt secret now = ⟨.missingHeaders, false⟩) ∧
    (∀ (body secret : List Nat) (sigOpt : Option (List Nat)) (now : Nat),
      verifySlackRequest_slack body sigOpt none secret now = ⟨.missingHeaders, false⟩) ∧
    (∀ i, i < 5 →
      (verifySlackRequest_slack (flipByte (strBytes "hello") i)
        (some (expectedSignature (strBytes "s3cret") 1700000000 (strBytes "hello")))
        (some 1700000000) (strBytes "s3cret") 1700000000).outcome = .invalidSignature) ∧
    (∀ i, i < 6 →
      (verifySlackRequest_slack (strBytes "hello")
        (some (expectedSignature (strBytes "s3cret") 1700000000 (strBytes "hello")))
        (some 1700000000) (flipByte (strBytes "s3cret") i) 1700000000).outcome =
        .invalidSignature) := by
  refine ⟨?_, ?_, ?_, ?_, ?_, ?_, ?_, ?_⟩
  rotate_left 6
  · intro i hi
    interval_cases i
    exacts [bodyFlipRejected0, bodyFlipRejected1, bodyFlipRejected2,
            bodyFlipRejected3, bodyFlipRejected4]
  · intro i hi
    interval_cases i
    exacts [secretFlipRejected0, secretFlipRejected1, secretFlipRejected2,
            secretFlipRejected3, secretFlipRejected4, secretFlipRejected5]
  · intro body secret ts now h
    unfold verifySlackRequest_slack
    dsimp only
    rw [if_neg (expectedSignature_ne_nil secret ts body), if_neg (Nat.not_lt.mpr h)]
    unfold timingSafeEqual
    simp
  · intro body secret sig ts now hne hacc
    obtain ⟨-, h⟩ := (verifySlackRequest_slack_accept_iff body secret sig ts now).mp hacc
    exact hne h
  · intro body secret ts now i hi hacc
    obtain ⟨-, h⟩ := (verifySlackRequest_slack_accept_iff body secret _ ts now).mp hacc
    exact flipByte_ne _ i hi h
  · intro body secret ts now h
    unfold verifySlackRequest_slack
    dsimp only
    rw [if_neg (expectedSignature_ne_nil secret ts body), if_pos h]
  · intro body secret tsOpt now
    cases tsOpt <;> rfl
  · intro body secret sigOpt now
    cases sigOpt <;> rfl

set_option maxRecDepth 1000000 in
/-- Witness for C3: at a concrete body, secret and timestamp the correct
signature is accepted, and a one-byte flip of the signature header is
rejected. -/
theorem c3_witness :
    verifySlackRequest_slack (strBytes "hello")
      (some (expectedSignature (strBytes "s3cret") 1700000000 (strBytes "hello")))
      (some 1700000000) (strBytes "s3cret") 1700000123 = ⟨.next, true⟩ ∧
    (verifySlackRequest_slack (strBytes "hello")
      (some (flipByte (expectedSignature (strBytes "s3cret") 1700000000 (strBytes "hello")) 3))
      (some 1700000000) (strBytes "s3cret") 1700000123).outcome ≠ .next :=
  ⟨c3_signature_verification.1 (strBytes "hello") (strBytes "s3cret") 1700000000
      1700000123 (by decide),
   c3_signature_verification.2.2.1 (strBytes "hello") (strBytes "s3cret") 1700000000
      1700000123 3 (by decide)⟩

end Esme
